import Mathlib

/-!
Verification of the co2-monitor device code against its specification.

The development shallowly embeds the relevant parts of the repository:

* `src/device/bootstrap.py` — the OTA bootstrap loader (version comparison,
  backup/rollback, atomic download, one update cycle of `main`);
* `src/device/co2_sensor.py` — the sensor read path, the health-check mode,
  one tick of the telemetry polling loop, live mode, config pushes;
* `src/app/services/scheduler.py` — the daily report firing decision.

File contents are modelled symbolically (`String` / parsed records), I/O
outcomes (network fetches, driver reads, raised exceptions) are supplied by
explicit environment records, timestamps and float quantities are rationals.
-/

namespace Bootstrap

/-- A calendar date as parsed by `datetime.strptime(s, "%Y-%m-%d")`. -/
structure Date where
  year : Nat
  month : Nat
  day : Nat
deriving DecidableEq, Repr

/-- Python `datetime` comparison of two parsed dates: lexicographic on
(year, month, day).  Embeds the `server_date > local_date` test of
`needs_update`. -/
def dateLt (a b : Date) : Bool :=
  (a.year < b.year) ||
  (a.year = b.year && a.month < b.month) ||
  (a.year = b.year && a.month = b.month && a.day < b.day)

/-- Gregorian leap-year rule used by Python's date validation. -/
def isLeap (y : Nat) : Bool :=
  y % 4 = 0 && (y % 100 ≠ 0 || y % 400 = 0)

/-- Days in a month, as Python's `datetime` validates `%d`. -/
def daysInMonth (y m : Nat) : Nat :=
  if m = 2 then (if isLeap y then 29 else 28)
  else if m = 4 || m = 6 || m = 9 || m = 11 then 30
  else 31

/-- Split a character list on `-`, like `str.split("-")` (and like the
group boundaries `strptime` sees for the `"%Y-%m-%d"` format). -/
def splitOnDash (cs : List Char) : List (List Char) :=
  match cs with
  | [] => [[]]
  | c :: rest =>
    let r := splitOnDash rest
    if c = '-' then [] :: r
    else match r with
      | [] => [[c]]
      | g :: gs => (c :: g) :: gs

/-- Numeric value of a digit string. -/
def digitsVal (cs : List Char) : Nat :=
  cs.foldl (fun a c => a * 10 + (c.toNat - '0'.toNat)) 0

/-- A digit group of at most `cap` digits, as matched by `%Y` / `%m` / `%d`. -/
def digitGroup (cap : Nat) (cs : List Char) : Option Nat :=
  if cs ≠ [] && cs.length ≤ cap && cs.all Char.isDigit then some (digitsVal cs)
  else none

/-- `datetime.strptime(s, "%Y-%m-%d")`: three dash-separated digit groups
(year up to 4 digits, month and day up to 2), month and day validated
against the calendar; `none` models the raised `ValueError`. -/
def parseDate (s : String) : Option Date :=
  match splitOnDash s.data with
  | [y, m, d] =>
    match digitGroup 4 y, digitGroup 2 m, digitGroup 2 d with
    | some yn, some mn, some dn =>
      if 1 ≤ mn && mn ≤ 12 && 1 ≤ dn && dn ≤ daysInMonth yn mn then
        some ⟨yn, mn, dn⟩
      else none
    | _, _, _ => none
  | _ => none

/-- The server manifest JSON: each field is `none` when the key is absent
(`dict.get` defaults are applied at each use site, as in the source). -/
structure Manifest where
  version : Option String
  date : Option String
  hash : Option String
  changelog : Option String
deriving DecidableEq, Repr

/-- The local version view used by `needs_update` (the dict returned by
`get_local_version`: keys `version`, `date`, `hash` always present). -/
structure LocalVersion where
  version : String
  date : String
  hash : String
deriving DecidableEq, Repr

/-- `bootstrap.needs_update(local, server)`: hash comparison first (only
when both sides report a non-empty hash), then the date comparison, whose
parse failures are swallowed by the `try`/`except`. -/
def needs_update (lo : LocalVersion) (server : Manifest) : Bool :=
  if lo.hash ≠ "" && server.hash.getD "" ≠ "" && lo.hash ≠ server.hash.getD "" then
    true
  else
    match parseDate lo.date, parseDate (server.date.getD "1970-01-01") with
    | some ld, some sd => dateLt ld sd
    | _, _ => false

/-- The date-comparison fallback of `needs_update` in isolation. -/
def dateTriggers (lo : LocalVersion) (server : Manifest) : Bool :=
  match parseDate lo.date, parseDate (server.date.getD "1970-01-01") with
  | some ld, some sd => dateLt ld sd
  | _, _ => false

/-- The on-disk `version.json` contents as written by `download_update`
(`json.dump(version_info, ...)`; all five keys present). -/
structure VersionRecord where
  version : String
  date : String
  hash : String
  updatedAt : String
  changelog : String
deriving DecidableEq, Repr

/-- The contents of `BACKUP_DIR` (each managed file present or absent). -/
structure BackupFS where
  main : Option String
  config : Option String
  version : Option VersionRecord
deriving DecidableEq, Repr

/-- The on-device files the bootstrap manages: `main.py`, `config.json`,
`version.json` in `INSTALL_DIR`, and the `backup/` directory (`none` when
the directory does not exist).  `version.json` is kept parsed: every write
in scope serialises a full record. -/
structure DeviceFS where
  main : Option String
  config : Option String
  version : Option VersionRecord
  backup : Option BackupFS
deriving DecidableEq, Repr

/-- `get_local_version`: the parsed record, or the `0.0.0` default when the
file is missing (a raw read/parse failure is subsumed by `none`). -/
def get_local_version (fs : DeviceFS) : LocalVersion :=
  match fs.version with
  | some r => ⟨r.version, r.date, r.hash⟩
  | none => ⟨"0.0.0", "1970-01-01", ""⟩

/-- Which I/O step of `create_backup` raises, if any: `0` the `mkdir`,
`1`/`2`/`3` the `shutil.copy2` of `main.py` / `config.json` /
`version.json` (a copy that is skipped because the source file is absent
cannot raise). -/
abbrev BackupFault := Option (Fin 4)

/-- `create_backup`: early return when `main.py` is absent; otherwise
`mkdir(exist_ok=True)` (keeping any stale backup contents) and per-file
copies of the files that exist, all under one `try` whose exception is
logged and swallowed.  Returns the filesystem and whether an exception was
raised. -/
def create_backup (fault : BackupFault) (fs : DeviceFS) : DeviceFS × Bool :=
  if fs.main.isNone then (fs, false)
  else if fault = some 0 then (fs, true)
  else
    let b0 := fs.backup.getD ⟨none, none, none⟩
    if fault = some 1 then ({ fs with backup := some b0 }, true)
    else
      let b1 : BackupFS := { b0 with main := fs.main }
      if fs.config.isSome && fault = some 2 then
        ({ fs with backup := some b1 }, true)
      else
        let b2 : BackupFS := if fs.config.isSome then { b1 with config := fs.config } else b1
        if fs.version.isSome && fault = some 3 then
          ({ fs with backup := some b2 }, true)
        else
          let b3 : BackupFS := if fs.version.isSome then { b2 with version := fs.version } else b2
          ({ fs with backup := some b3 }, false)

/-- Which copy of `rollback` raises, if any (indices as in `BackupFault`,
without the `mkdir` step). -/
abbrev RollbackFault := Option (Fin 3)

/-- `rollback`: `False` when no backup directory exists; otherwise restore
each file present in the backup, returning `False` if a copy raises
(partial restores keep the copies already made). -/
def rollback (fault : RollbackFault) (fs : DeviceFS) : DeviceFS × Bool :=
  match fs.backup with
  | none => (fs, false)
  | some b =>
    if b.main.isSome && fault = some 0 then (fs, false)
    else
      let fs1 := if b.main.isSome then { fs with main := b.main } else fs
      if b.config.isSome && fault = some 1 then (fs1, false)
      else
        let fs2 := if b.config.isSome then { fs1 with config := b.config } else fs1
        if b.version.isSome && fault = some 2 then (fs2, false)
        else
          let fs3 := if b.version.isSome then { fs2 with version := b.version } else fs2
          (fs3, true)

/-- The I/O outcomes one bootstrap cycle can observe. -/
structure CycleEnv where
  /-- `get_server_manifest()` (`none` = server unreachable / bad response). -/
  manifest : Option Manifest
  /-- Where `create_backup` raises, if anywhere. -/
  backupFault : BackupFault
  /-- `download_file` of the main script: the bytes, or `none` when all
  retries failed. -/
  scriptDownload : Option String
  /-- `download_file` of the config (optional: failure is ignored). -/
  configDownload : Option String
  /-- `datetime.now().strftime("%Y-%m-%d")` (default for a missing
  manifest date). -/
  today : String
  /-- `datetime.utcnow().isoformat()` for the `updated_at` field. -/
  nowIso : String
  /-- The outcome of `run_health_check()` in `main`. -/
  healthOk : Bool
  /-- Where `rollback` raises, if anywhere. -/
  rollbackFault : RollbackFault
deriving DecidableEq, Repr

/-- `download_update(manifest)`: download the script (failure aborts),
verify its hash (mismatch deletes the script and aborts; an absent manifest
hash skips verification), download the config best-effort, then write
`version.json` from the manifest.  `md5` is the hash primitive,
`hashlib.md5(...).hexdigest()`. -/
def download_update (md5 : String → String) (env : CycleEnv) (m : Manifest)
    (fs : DeviceFS) : DeviceFS × Bool :=
  match env.scriptDownload with
  | none => (fs, false)
  | some script =>
    let fs1 := { fs with main := some script }
    if m.hash.getD "" ≠ "" && md5 script ≠ m.hash.getD "" then
      ({ fs1 with main := none }, false)
    else
      let fs2 := match env.configDownload with
        | some c => { fs1 with config := some c }
        | none => fs1
      let rec_ : VersionRecord :=
        ⟨m.version.getD "unknown", m.date.getD env.today, m.hash.getD "",
         env.nowIso, m.changelog.getD ""⟩
      ({ fs2 with version := some rec_ }, true)

/-- How one bootstrap cycle ended (before `run_main_script`). -/
inductive CycleOutcome where
  | noManifest
  | upToDate
  | downloadFailed
  | committed
  | rolledBack
  | rollbackFailed
deriving DecidableEq, Repr

/-- Observable result of one cycle. -/
structure CycleResult where
  fs : DeviceFS
  /-- `create_backup` raised (and was logged as `WARN`). -/
  backupFailed : Bool
  /-- `download_update` was entered (the download step ran). -/
  downloadAttempted : Bool
  outcome : CycleOutcome
deriving DecidableEq, Repr

/-- One iteration of the update part of `bootstrap.main` (from
`get_local_version` up to, and not including, `run_main_script`):
manifest fetch, `needs_update`, `create_backup`, `download_update`,
health check, commit or rollback.  `install_dependencies` touches none of
the modelled files. -/
def runCycle (md5 : String → String) (env : CycleEnv) (fs : DeviceFS) : CycleResult :=
  let lo := get_local_version fs
  match env.manifest with
  | none => ⟨fs, false, false, .noManifest⟩
  | some m =>
    if needs_update lo m then
      let (fs1, bfail) := create_backup env.backupFault fs
      let (fs2, ok) := download_update md5 env m fs1
      if ok then
        if env.healthOk then ⟨fs2, bfail, true, .committed⟩
        else
          let (fs3, rok) := rollback env.rollbackFault fs2
          if rok then ⟨fs3, bfail, true, .rolledBack⟩
          else ⟨fs3, bfail, true, .rollbackFailed⟩
      else ⟨fs2, bfail, true, .downloadFailed⟩
    else ⟨fs, false, false, .upToDate⟩

/-- File contents as byte lists, for the download-atomicity model. -/
abbrev Bytes := List Nat

/-- The two paths `download_file` touches: the destination and its `.tmp`
sibling (`dest.with_suffix(".tmp")`, a distinct path for the artifacts the
loader downloads). -/
structure DlFS where
  dest : Option Bytes
  temp : Option Bytes
deriving DecidableEq, Repr

/-- One attempt of `download_file`'s retry loop, as its I/O resolves:
the fetch raises, the temp-file write raises after `k` bytes, or the
attempt completes and renames the temp file onto the destination. -/
inductive DlAttempt where
  | fetchFail
  | writeFail (content : Bytes) (k : Nat)
  | ok (content : Bytes)
deriving DecidableEq, Repr

/-- The filesystem states passed through while `open(temp,"wb")` truncates
the temp file and writes the first `upto` bytes of `content`. -/
def writeStates (fs : DlFS) (content : Bytes) (upto : Nat) : List DlFS :=
  (List.range (upto + 1)).map fun k => { fs with temp := some (content.take k) }

/-- The state left by a finished attempt. -/
def attemptFinal (fs : DlFS) (a : DlAttempt) : DlFS :=
  match a with
  | .fetchFail => fs
  | .writeFail c k => { fs with temp := some (c.take (min k c.length)) }
  | .ok c => ⟨some c, none⟩

/-- Every intermediate filesystem state of one attempt (the rename of a
successful attempt is its last state). -/
def attemptStates (fs : DlFS) (a : DlAttempt) : List DlFS :=
  match a with
  | .fetchFail => [fs]
  | .writeFail c k => writeStates fs c (min k c.length)
  | .ok c => writeStates fs c c.length ++ [⟨some c, none⟩]

/-- All intermediate states of `download_file` across its (at most
`MAX_DOWNLOAD_RETRIES`) attempts; the loop returns after the first
successful attempt. -/
def downloadTrace (fs : DlFS) (attempts : List DlAttempt) : List DlFS :=
  match attempts with
  | [] => []
  | a :: rest =>
    attemptStates fs a ++
      (match a with
       | .ok _ => []
       | _ => downloadTrace (attemptFinal fs a) rest)

end Bootstrap

namespace Sensor

/-- A validated reading as returned by `SCD41Sensor.read`: `int(co2)`,
`round(temperature, 1)`, `round(humidity, 1)`. -/
structure Reading where
  co2 : ℤ
  temperature : ℚ
  humidity : ℚ
deriving DecidableEq, Repr

/-- Raw driver values (`self.scd4x.CO2` / `.temperature` /
`.relative_humidity`), idealised as rationals. -/
structure RawSample where
  co2 : ℚ
  temperature : ℚ
  humidity : ℚ
deriving DecidableEq, Repr

/-- Python `int()` on a float: truncation toward zero. -/
def truncInt (x : ℚ) : ℤ :=
  if 0 ≤ x then ⌊x⌋ else ⌈x⌉

/-- Python `round()` to an integer: round half to even. -/
def roundHalfEven (x : ℚ) : ℤ :=
  let f := ⌊x⌋
  let r := x - f
  if r < 1 / 2 then f
  else if 1 / 2 < r then f + 1
  else if 2 ∣ f then f else f + 1

/-- Python `round(x, 1)`: one decimal place. -/
def round1 (x : ℚ) : ℚ :=
  (roundHalfEven (x * 10) : ℚ) / 10

/-- The mutable part of `SCD41Sensor` that `read` consults. -/
structure SensorState where
  /-- `self.initialized`. -/
  initialized : Bool
  /-- `self.scd4x is not None`. -/
  hasDevice : Bool
  /-- `self._readings_to_skip`. -/
  readingsToSkip : Nat
deriving DecidableEq, Repr

/-- Driver behaviour during one `read` call: the two `data_ready` polls
(before and after the 1 s sleep), and the property reads — `none` when the
driver raises (the `except` branch returns `None`). -/
structure ReadEnv where
  dataReady1 : Bool
  dataReady2 : Bool
  sample : Option RawSample
deriving DecidableEq, Repr

/-- `SCD41Sensor.read`: guard on initialisation, the two `data_ready`
polls, warm-up skip countdown, physical bounds checks, then the converted
reading. -/
def sensorRead (s : SensorState) (env : ReadEnv) : Option Reading × SensorState :=
  if !s.initialized || !s.hasDevice then (none, s)
  else if !env.dataReady1 && !env.dataReady2 then (none, s)
  else
    match env.sample with
    | none => (none, s)
    | some raw =>
      if s.readingsToSkip > 0 then (none, { s with readingsToSkip := s.readingsToSkip - 1 })
      else if ¬ (0 ≤ raw.co2 ∧ raw.co2 ≤ 40000) then (none, s)
      else if ¬ (-10 ≤ raw.temperature ∧ raw.temperature ≤ 60) then (none, s)
      else if ¬ (0 ≤ raw.humidity ∧ raw.humidity ≤ 100) then (none, s)
      else (some ⟨truncInt raw.co2, round1 raw.temperature, round1 raw.humidity⟩, s)

/-- I/O outcomes of one `run_health_check` invocation.  `reads` gives the
result of the `i`-th `sensor.read()` attempt; `writeOk` is whether
`HEALTH_FILE.write_text` succeeds (the marker write itself, modelled as
atomic: raised ⇒ no marker file). -/
structure HealthEnv where
  initOk : Bool
  reads : Nat → Option Reading
  mqttOk : Bool
  writeOk : Bool

/-- The `for attempt in range(5)` read loop: first non-`None` result of at
most five attempts. -/
def healthReading (reads : Nat → Option Reading) : Option Reading :=
  (List.range 5).findSome? reads

/-- `run_health_check(sensor, config)`: `(returned value, marker file
created)`.  Sensor init, bounded reads, broker connect (a connect
exception and a connect refusal both yield `False`), then the marker
write. -/
def run_health_check (env : HealthEnv) : Bool × Bool :=
  if !env.initOk then (false, false)
  else
    match healthReading env.reads with
    | none => (false, false)
    | some _ =>
      if !env.mqttOk then (false, false)
      else if env.writeOk then (true, true) else (false, false)

/-- `main()` in `--health-check` mode: `sys.exit(0 if success else 1)`. -/
def healthCheckExit (env : HealthEnv) : Nat :=
  if (run_health_check env).1 then 0 else 1

/-- Whether the marker file exists after the health-check run. -/
def healthMarker (env : HealthEnv) : Bool :=
  (run_health_check env).2

/-- `CO2MQTTClient.DISPLAY_INTERVAL`. -/
def DISPLAY_INTERVAL : ℚ := 5

/-- `CO2MQTTClient.LIVE_MODE_INTERVAL`. -/
def LIVE_MODE_INTERVAL : ℚ := 5

/-- `self._cache_max_age`. -/
def CACHE_MAX_AGE : ℚ := 15

/-- The state of `CO2MQTTClient.run`'s loop: instance fields plus the two
loop-local `last_*` stamps.  Timestamps are `time.time()` rationals. -/
structure RunState where
  /-- `self._display_enabled`. -/
  displayEnabled : Bool
  /-- `self.config["send_interval"]`. -/
  sendInterval : ℚ
  /-- `self._live_mode_until` (`0` = disabled). -/
  liveModeUntil : ℚ
  /-- `self._cached_reading`. -/
  cachedReading : Option Reading
  /-- `self._cached_reading_time`. -/
  cachedReadingTime : ℚ
  lastDisplayUpdate : ℚ
  lastMqttSend : ℚ
  /-- `self.connected`. -/
  connected : Bool
deriving DecidableEq, Repr

/-- `CO2MQTTClient._is_live_mode_active`, with its lazy-expiry write-back:
`(returned value, new _live_mode_until)`. -/
def isLiveModeActive (activeUntil : ℚ) (now : ℚ) : Bool × ℚ :=
  if activeUntil = 0 then (false, activeUntil)
  else if activeUntil < now then (false, 0)
  else (true, activeUntil)

/-- `CO2MQTTClient._get_display_data`: fresh reading updates the cache and
wins; otherwise a cached reading no older than `CACHE_MAX_AGE`; otherwise
`None`. -/
def getDisplayData (s : RunState) (now : ℚ) (fresh : Option Reading) :
    Option Reading × RunState :=
  match fresh with
  | some r => (some r, { s with cachedReading := some r, cachedReadingTime := now })
  | none =>
    match s.cachedReading with
    | some c => if now - s.cachedReadingTime ≤ CACHE_MAX_AGE then (some c, s) else (none, s)
    | none => (none, s)

/-- Externally visible effects of one loop tick. -/
inductive TickAction where
  /-- `self.client.reconnect()` attempted. -/
  | reconnectAttempt
  /-- `self.display.show(...)` with this reading (possibly from the cache). -/
  | displayShow (r : Reading)
  /-- `self.display.show_status("SENSOR ERROR")`. -/
  | displayError
  /-- `self._send_telemetry(r)`: a publish of exactly this reading. -/
  | publish (r : Reading)
deriving DecidableEq, Repr

/-- Result of one tick: the new state, the emitted effects, the effective
MQTT interval this tick used, and whether `sensor.read()` was invoked. -/
structure TickResult where
  state : RunState
  actions : List TickAction
  interval : ℚ
  didRead : Bool
deriving DecidableEq, Repr

/-- One iteration of the `while self.running` loop of `CO2MQTTClient.run`
at wall-clock `now`.  `sensorResult` is what `self.sensor.read()` returns
if invoked this tick. -/
def tick (s : RunState) (now : ℚ) (sensorResult : Option Reading) : TickResult :=
  let lm := isLiveModeActive s.liveModeUntil now
  let s1 := { s with liveModeUntil := lm.2 }
  let interval := if lm.1 then LIVE_MODE_INTERVAL else s.sendInterval
  let needDisp := s.displayEnabled && decide (DISPLAY_INTERVAL ≤ now - s.lastDisplayUpdate)
  let needMqtt := decide (interval ≤ now - s.lastMqttSend)
  if needDisp || needMqtt then
    if !s.connected then ⟨s1, [.reconnectAttempt], interval, false⟩
    else
      let gd := getDisplayData s1 now sensorResult
      let s2 := if needDisp then { gd.2 with lastDisplayUpdate := now } else s1
      let dispActs : List TickAction :=
        if needDisp then
          match gd.1 with
          | some r => [.displayShow r]
          | none => [.displayError]
        else []
      match needMqtt, sensorResult with
      | true, some r =>
        ⟨{ s2 with lastMqttSend := now }, dispActs ++ [.publish r], interval, true⟩
      | _, _ => ⟨s2, dispActs, interval, true⟩
  else ⟨s1, [], interval, false⟩

/-- The live config dict (`self.config`) plus the display flag's mirror
key.  `mqttBroker` and `deviceName` stand for the config keys
`_apply_config` has no handler for. -/
structure DeviceCfg where
  mqttBroker : String
  mqttPort : ℤ
  sendInterval : ℚ
  deviceUid : String
  deviceName : String
  displayEnabled : Bool
deriving DecidableEq, Repr

/-- A broker config push: `some` = the key is present in the payload. -/
structure ConfigPush where
  sendInterval : Option ℚ
  displayEnabled : Option Bool
  mqttBroker : Option String
  deviceName : Option String
deriving DecidableEq, Repr

/-- Observable result of `_apply_config`. -/
structure ApplyResult where
  config : DeviceCfg
  /-- `self._display_enabled` afterwards. -/
  displayFlag : Bool
  /-- The `if changed:` branch ran, writing `config.json` (best-effort). -/
  persistAttempted : Bool
  /-- `self.display.clear()` was called. -/
  displayCleared : Bool
deriving DecidableEq, Repr

/-- `CO2MQTTClient._apply_config(new_config)`: handlers exist exactly for
`send_interval` and `display_enabled`; `changed` is set when either key is
present; the config file is rewritten iff `changed`. -/
def applyConfig (cfg : DeviceCfg) (flag : Bool) (p : ConfigPush) : ApplyResult :=
  let cfg1 := match p.sendInterval with
    | some v => { cfg with sendInterval := v }
    | none => cfg
  let cfg2 := match p.displayEnabled with
    | some b => { cfg1 with displayEnabled := b }
    | none => cfg1
  let flag2 := match p.displayEnabled with
    | some b => b
    | none => flag
  let changed := p.sendInterval.isSome || p.displayEnabled.isSome
  ⟨cfg2, flag2, changed, p.displayEnabled == some false⟩

end Sensor

namespace Scheduler

/-- A wall-clock time of day.  Report times are stored via
`time(hour, minute)`, so their seconds are always zero; the scheduler
reads only `.hour` and `.minute` of the current time. -/
structure TimeOfDay where
  hour : Nat
  minute : Nat
deriving DecidableEq, Repr

/-- A calendar date in the subscriber's timezone. -/
structure LocalDate where
  year : Nat
  month : Nat
  day : Nat
deriving DecidableEq, Repr

/-- `now_local` as recorded in the last-check dict: a timezone-local
datetime, of which `.date()` is later compared. -/
structure LocalStamp where
  date : LocalDate
  time : TimeOfDay
deriving DecidableEq, Repr

/-- Minutes since local midnight (`t.hour * 60 + t.minute`). -/
def minutesOfDay (t : TimeOfDay) : Nat :=
  t.hour * 60 + t.minute

/-- `ReportScheduler._should_send_report` for one subscriber and one
report type: the `[scheduled, scheduled+5)` minutes-of-day window, then
the sent-today check against that type's last-check entry. -/
def shouldSendReport (scheduled current : TimeOfDay) (today : LocalDate)
    (lastSent : Option LocalStamp) : Bool :=
  let sm := minutesOfDay scheduled
  let cm := minutesOfDay current
  if sm ≤ cm ∧ cm < sm + 5 then
    match lastSent with
    | some ls => decide (ls.date ≠ today)
    | none => true
  else false

/-- Modelled from the spec's words (claim C8), for comparison with
`shouldSendReport`: "current local time is within the 5-minute window
starting at the configured time-of-day", read cyclically over the day so a
window opened just before midnight extends into the next day. -/
def specWindow (scheduled current : TimeOfDay) : Bool :=
  (List.range 5).any fun k =>
    (minutesOfDay scheduled + k) % 1440 == minutesOfDay current

/-- Modelled from the spec's words (claim C8): fire iff within the window
and no report of this type was recorded sent on today's local date. -/
def specShouldSend (scheduled current : TimeOfDay) (today : LocalDate)
    (lastSent : Option LocalStamp) : Bool :=
  specWindow scheduled current &&
    (match lastSent with
     | some ls => decide (ls.date ≠ today)
     | none => true)

end Scheduler

namespace Scenario

open Bootstrap

/-- First-install state: no files on the device, no backup directory. -/
def freshFS : DeviceFS := ⟨none, none, none, none⟩

/-- An installed 1.0.0 device: script, config and version record present,
no backup directory yet. -/
def installedFS : DeviceFS :=
  ⟨some "old code", some "old cfg", some ⟨"1.0.0", "2025-01-01", "", "t0", ""⟩, none⟩

/-- A 1.1.0 server manifest that declares no content hash (so the hash
check is skipped) and a newer release date. -/
def manifest110 : Manifest := ⟨some "1.1.0", some "2025-01-02", none, none⟩

/-- A cycle whose download succeeds and whose health check fails, with no
backup or rollback faults. -/
def healthFailEnv : CycleEnv :=
  ⟨some manifest110, none, some "new code", none, "2025-01-02", "t1", false, none⟩

/-- A cycle in which `create_backup` raises at its first step
(`mkdir`), the download succeeds and the health check passes. -/
def backupFaultEnv : CycleEnv :=
  ⟨some manifest110, some 0, some "new code", none, "2025-01-02", "t1", true, none⟩

end Scenario

open Bootstrap Sensor Scheduler

/-- Helper: every state recorded while the temp file is being written keeps
the destination path untouched. -/
theorem writeStates_dest (fs : DlFS) (c : Bytes) (u : Nat) :
    ∀ s ∈ writeStates fs c u, s.dest = fs.dest := by
  intro s hs
  unfold writeStates at hs
  simp only [List.mem_map, List.mem_range] at hs
  obtain ⟨k, -, rfl⟩ := hs
  rfl

/-- Helper: during one download attempt the destination either keeps its
prior contents, or (only at the final rename of a successful attempt)
holds that attempt's complete content. -/
theorem attemptStates_dest (fs : DlFS) (a : DlAttempt) :
    ∀ s ∈ attemptStates fs a,
      s.dest = fs.dest ∨ ∃ c, a = DlAttempt.ok c ∧ s.dest = some c := by
  intro s hs
  cases a with
  | fetchFail =>
    simp only [attemptStates, List.mem_singleton] at hs
    subst hs
    exact Or.inl rfl
  | writeFail c k =>
    exact Or.inl (writeStates_dest fs c _ s hs)
  | ok c =>
    simp only [attemptStates, List.mem_append, List.mem_singleton] at hs
    rcases hs with hs | hs
    · exact Or.inl (writeStates_dest fs c _ s hs)
    · subst hs
      exact Or.inr ⟨c, rfl, rfl⟩

/-- Helper: a failed attempt leaves the destination unchanged. -/
theorem attemptFinal_dest (fs : DlFS) (a : DlAttempt) (h : ∀ c, a ≠ DlAttempt.ok c) :
    (attemptFinal fs a).dest = fs.dest := by
  cases a with
  | fetchFail => rfl
  | writeFail c k => rfl
  | ok c => exact absurd rfl (h c)

/-- Helper: a fault-free `create_backup` on a device with a main script and
a version record snapshots both into the backup directory. -/
theorem create_backup_none (fs : DeviceFS) (hm : fs.main.isSome) (hv : fs.version.isSome) :
    ∃ b : BackupFS, create_backup none fs = ({ fs with backup := some b }, false) ∧
      b.main = fs.main ∧ b.version = fs.version := by
  unfold create_backup
  rw [if_neg (by simp [Option.isNone_iff_eq_none]; exact Option.isSome_iff_ne_none.mp hm)]
  simp only [show ((none : BackupFault) = some 0) = False by simp,
    show ((none : BackupFault) = some 1) = False by simp,
    show ((none : BackupFault) = some 2) = False by simp,
    show ((none : BackupFault) = some 3) = False by simp]
  simp only [Bool.and_false, if_false, decide_False, Bool.false_eq_true, ite_false]
  refine ⟨_, rfl, ?_, ?_⟩
  · cases hc : fs.config.isSome <;> simp [hv]
  · cases hc : fs.config.isSome <;> simp [hv]

/-- Helper: a fault-free `rollback` from a backup that holds a version
record succeeds and restores that record. -/
theorem rollback_none (fs : DeviceFS) (b : BackupFS) (hb : fs.backup = some b)
    (hv : b.version.isSome) :
    (rollback none fs).2 = true ∧ (rollback none fs).1.version = b.version := by
  unfold rollback
  rw [hb]
  simp only [show ((none : RollbackFault) = some 0) = False by simp,
    show ((none : RollbackFault) = some 1) = False by simp,
    show ((none : RollbackFault) = some 2) = False by simp]
  simp only [Bool.and_false, decide_False, Bool.false_eq_true, if_false, ite_false]
  cases hc : b.config.isSome <;> simp [hv]

/-- Helper: `download_update` never touches the backup directory. -/
theorem download_update_backup (md5 : String → String) (env : CycleEnv) (m : Manifest)
    (fs1 : DeviceFS) : (download_update md5 env m fs1).1.backup = fs1.backup := by
  unfold download_update
  repeat' split
  all_goals rfl

/-- C1 (corrected).  The claim "for every update cycle in which the health
check fails, the on-disk version record ends the cycle equal to its
pre-update value" is false as stated: `download_update` writes the new
record before the health check, and the record is only restored when the
rollback can actually restore it.  Amended: when the cycle enters the
update path with a main script and a version record on disk and neither
`create_backup` nor `rollback` faults, a failed health check ends the
cycle either with the download having failed or rolled back with the
version record equal to its pre-update value. -/
theorem c1_rollback_restores_version (md5 : String → String) (env : CycleEnv) (fs : DeviceFS)
    (m : Manifest) (hman : env.manifest = some m)
    (hupd : needs_update (get_local_version fs) m = true)
    (hmain : fs.main.isSome) (hver : fs.version.isSome)
    (hbf : env.backupFault = none) (hrf : env.rollbackFault = none)
    (hh : env.healthOk = false) :
    (runCycle md5 env fs).outcome = CycleOutcome.downloadFailed ∨
    ((runCycle md5 env fs).outcome = CycleOutcome.rolledBack ∧
      (runCycle md5 env fs).fs.version = fs.version) := by
  obtain ⟨b, hcb, hbm, hbv⟩ := create_backup_none fs hmain hver
  unfold runCycle
  rw [hman]
  simp only [hupd, if_true]
  rw [hbf, hcb]
  cases hdl : download_update md5 env m { fs with backup := some b } with
  | mk fs2 ok =>
    cases ok with
    | false => exact Or.inl rfl
    | true =>
      have hb2 : fs2.backup = some b := by
        have h := download_update_backup md5 env m { fs with backup := some b }
        rw [hdl] at h
        exact h
      have hroll := rollback_none fs2 b hb2 (by rw [hbv]; exact hver)
      rw [hh, hrf]
      cases hrb : rollback none fs2 with
      | mk fs3 rok =>
        rw [hrb] at hroll
        obtain ⟨hrok, hfv⟩ := hroll
        simp only at hrok hfv
        subst hrok
        refine Or.inr ⟨rfl, ?_⟩
        simp [hfv, hbv]

/-- C1 counterexample: on a first install (no files on disk, hence no
backup snapshot), an update whose health check fails completes the cycle
with the version record reflecting the attempted update, not its
pre-update (absent) value. -/
theorem c1_counterexample :
    (runCycle id Scenario.healthFailEnv Scenario.freshFS).outcome = CycleOutcome.rollbackFailed ∧
    (runCycle id Scenario.healthFailEnv Scenario.freshFS).fs.version ≠ Scenario.freshFS.version := by
  decide

/-- C1 witness: a fault-free failed-health-check cycle on an installed
device restores the pre-update version record. -/
theorem c1_witness :
    (runCycle id Scenario.healthFailEnv Scenario.installedFS).outcome = CycleOutcome.downloadFailed ∨
    ((runCycle id Scenario.healthFailEnv Scenario.installedFS).outcome = CycleOutcome.rolledBack ∧
      (runCycle id Scenario.healthFailEnv Scenario.installedFS).fs.version =
        Scenario.installedFS.version) :=
  c1_rollback_restores_version id Scenario.healthFailEnv Scenario.installedFS Scenario.manifest110
    rfl (by decide) (by decide) (by decide) rfl rfl rfl

/-- C2 (corrected).  Hash precedence holds in one direction only: when both
sides report a hash, differing hashes trigger an update even on equal
dates; but equal hashes do not short-circuit the decision — the date
comparison still runs, so a newer server date triggers an update even when
the hashes are identical. -/
theorem c2_hash_precedence (lo : LocalVersion) (server : Manifest)
    (hl : lo.hash ≠ "") (hs : server.hash.getD "" ≠ "") :
    (lo.hash ≠ server.hash.getD "" → needs_update lo server = true) ∧
    (lo.hash = server.hash.getD "" → needs_update lo server = dateTriggers lo server) := by
  unfold needs_update dateTriggers
  constructor
  · intro hne
    simp [hl, hs, hne]
  · intro heq
    simp [heq]

/-- C2 counterexample: equal hashes on both sides with a newer server date
make `needs_update` return `true`, where the claim requires `false`. -/
theorem c2_counterexample :
    ((⟨"1.0", "2025-01-01", "A"⟩ : LocalVersion).hash =
        (⟨some "1.1", some "2025-01-02", some "A", none⟩ : Manifest).hash.getD "") ∧
    dateTriggers ⟨"1.0", "2025-01-01", "A"⟩ ⟨some "1.1", some "2025-01-02", some "A", none⟩ = true ∧
    needs_update ⟨"1.0", "2025-01-01", "A"⟩ ⟨some "1.1", some "2025-01-02", some "A", none⟩ = true := by
  decide

/-- C2 witness: differing hashes with equal dates trigger an update. -/
theorem c2_witness :
    ((⟨"1.0", "2025-01-01", "A"⟩ : LocalVersion).hash ≠ "" ∧
        (⟨some "1.1", some "2025-01-01", some "B", none⟩ : Manifest).hash.getD "" ≠ "") ∧
    needs_update ⟨"1.0", "2025-01-01", "A"⟩ ⟨some "1.1", some "2025-01-01", some "B", none⟩ = true :=
  ⟨⟨by decide, by decide⟩,
    (c2_hash_precedence ⟨"1.0", "2025-01-01", "A"⟩ ⟨some "1.1", some "2025-01-01", some "B", none⟩
      (by decide) (by decide)).1 (by decide)⟩

/-- C3 (corrected).  The claim that a backup failure abandons the update
before the download step is false: `create_backup` swallows its exception
with a warning and `main` proceeds unconditionally.  Amended: whenever the
update path is entered, the download step runs, whether or not the backup
succeeded. -/
theorem c3_download_runs_regardless (md5 : String → String) (env : CycleEnv) (fs : DeviceFS)
    (m : Manifest) (hman : env.manifest = some m)
    (hupd : needs_update (get_local_version fs) m = true) :
    (runCycle md5 env fs).downloadAttempted = true := by
  unfold runCycle
  rw [hman]
  simp only [hupd, if_true]
  repeat' split
  all_goals rfl

/-- C3 counterexample: a cycle whose `create_backup` raises at its first
step still downloads, passes the health check and commits the update. -/
theorem c3_counterexample :
    (runCycle id Scenario.backupFaultEnv Scenario.installedFS).backupFailed = true ∧
    (runCycle id Scenario.backupFaultEnv Scenario.installedFS).downloadAttempted = true ∧
    (runCycle id Scenario.backupFaultEnv Scenario.installedFS).outcome = CycleOutcome.committed := by
  decide

/-- C3 witness: the amended claim at the backup-fault scenario. -/
theorem c3_witness :
    (runCycle id Scenario.backupFaultEnv Scenario.installedFS).downloadAttempted = true :=
  c3_download_runs_regardless id Scenario.backupFaultEnv Scenario.installedFS Scenario.manifest110
    rfl (by decide)

/-- C4 (confirmed).  In health-check mode, provided the marker write itself
does not fail (`writeOk`, the emission being modelled as an atomic write):
the marker is emitted iff sensor initialisation, one of the five bounded
read attempts, and the broker connection all succeed; any failure of those
steps exits with code 1 and no marker; and a zero exit coincides exactly
with the marker's existence. -/
theorem c4_health_marker_iff (env : HealthEnv) (hw : env.writeOk = true) :
    (healthMarker env = true ↔
      (env.initOk = true ∧ (healthReading env.reads).isSome = true ∧ env.mqttOk = true)) ∧
    (¬ (env.initOk = true ∧ (healthReading env.reads).isSome = true ∧ env.mqttOk = true) →
      healthCheckExit env = 1 ∧ healthMarker env = false) ∧
    (healthCheckExit env = 0 ↔ healthMarker env = true) := by
  unfold healthMarker healthCheckExit run_health_check
  cases hI : env.initOk <;> cases hM : env.mqttOk <;> cases hR : healthReading env.reads <;>
    simp_all

/-- C4 witness: with everything healthy the marker is emitted. -/
theorem c4_witness :
    healthMarker ⟨true, fun _ => some ⟨400, 20, 50⟩, true, true⟩ = true :=
  (c4_health_marker_iff ⟨true, fun _ => some ⟨400, 20, 50⟩, true, true⟩ rfl).1.mpr
    ⟨rfl, rfl, rfl⟩

/-- C5 (confirmed).  Download atomicity: at every intermediate filesystem
state of `download_file` (any interruption point, across all retry
attempts), the destination path holds either its original contents or the
complete content of a successful attempt — never a partial write. -/
theorem c5_download_atomic (fs0 : DlFS) (attempts : List DlAttempt) :
    ∀ s ∈ downloadTrace fs0 attempts,
      s.dest = fs0.dest ∨ ∃ c, DlAttempt.ok c ∈ attempts ∧ s.dest = some c := by
  induction attempts generalizing fs0 with
  | nil =>
    intro s hs
    simp [downloadTrace] at hs
  | cons a rest ih =>
    intro s hs
    unfold downloadTrace at hs
    rw [List.mem_append] at hs
    rcases hs with hs | hs
    · rcases attemptStates_dest fs0 a s hs with h | ⟨c, hac, hd⟩
      · exact Or.inl h
      · exact Or.inr ⟨c, by rw [hac]; exact List.mem_cons_self _ _, hd⟩
    · cases a with
      | ok c => simp at hs
      | fetchFail =>
        rcases ih (attemptFinal fs0 .fetchFail) s hs with h | ⟨c, hc, hd⟩
        · exact Or.inl (h.trans (attemptFinal_dest fs0 .fetchFail (by intro c h; cases h)))
        · exact Or.inr ⟨c, List.mem_cons_of_mem _ hc, hd⟩
      | writeFail cw k =>
        rcases ih (attemptFinal fs0 (.writeFail cw k)) s hs with h | ⟨c, hc, hd⟩
        · exact Or.inl (h.trans (attemptFinal_dest fs0 (.writeFail cw k) (by intro c h; cases h)))
        · exact Or.inr ⟨c, List.mem_cons_of_mem _ hc, hd⟩

/-- C5 witness: a mid-write state of a two-attempt download (first attempt
interrupted, second successful) keeps the old destination contents. -/
theorem c5_witness :
    (⟨some [1], some [5]⟩ : DlFS).dest = (⟨some [1], some [9]⟩ : DlFS).dest ∨
    ∃ c, DlAttempt.ok c ∈ [DlAttempt.writeFail [5, 6] 1, DlAttempt.ok [7, 8]] ∧
      (⟨some [1], some [5]⟩ : DlFS).dest = some c :=
  c5_download_atomic ⟨some [1], some [9]⟩ [DlAttempt.writeFail [5, 6] 1, DlAttempt.ok [7, 8]]
    ⟨some [1], some [5]⟩ (by decide)

/-- Helper: the new live-mode window after a tick is exactly what the lazy
expiry check of `_is_live_mode_active` wrote back. -/
theorem tick_state_liveModeUntil (s : RunState) (now : ℚ) (sr : Option Reading) :
    (tick s now sr).state.liveModeUntil = (isLiveModeActive s.liveModeUntil now).2 := by
  unfold tick
  simp only [getDisplayData]
  repeat' split
  all_goals simp_all

/-- Helper: the effective MQTT interval of a tick is the live-mode interval
when live mode is active and the configured send interval otherwise. -/
theorem tick_interval_eq (s : RunState) (now : ℚ) (sr : Option Reading) :
    (tick s now sr).interval =
      (if (isLiveModeActive s.liveModeUntil now).1 then LIVE_MODE_INTERVAL else s.sendInterval) := by
  unfold tick
  simp only [getDisplayData]
  repeat' split
  all_goals simp_all

/-- C6 (confirmed).  Telemetry never uses the display cache: every publish
emitted by a tick carries exactly the fresh reading of that tick (so a
`none` fresh read publishes nothing, whatever the cache holds); and when
connected with a publish due, a fresh reading is published. -/
theorem c6_telemetry_fresh_only (s : RunState) (now : ℚ) (sr : Option Reading) :
    (∀ r, TickAction.publish r ∈ (tick s now sr).actions → sr = some r) ∧
    (s.connected = true → (tick s now sr).interval ≤ now - s.lastMqttSend →
      ∀ r, sr = some r → TickAction.publish r ∈ (tick s now sr).actions) := by
  constructor
  · intro r hr
    unfold tick at hr
    simp only [getDisplayData] at hr
    repeat' split at hr
    all_goals simp_all
  · intro hc hdue r hsr
    rw [tick_interval_eq] at hdue
    subst hsr
    unfold tick
    simp only [getDisplayData]
    repeat' split
    all_goals simp_all

/-- C6 witness: a due, connected tick with a fresh reading publishes it. -/
theorem c6_witness :
    TickAction.publish ⟨400, 20, 50⟩ ∈
      (tick ⟨true, 60, 0, none, 0, 60, 0, true⟩ 60 (some ⟨400, 20, 50⟩)).actions :=
  (c6_telemetry_fresh_only ⟨true, 60, 0, none, 0, 60, 0, true⟩ 60 (some ⟨400, 20, 50⟩)).2
    rfl (by rw [tick_interval_eq]; norm_num [isLiveModeActive]) ⟨400, 20, 50⟩ rfl

/-- C7 (confirmed).  Live mode decays lazily: once wall-clock time passes a
non-zero `activeUntil`, the very next evaluation returns inactive, clears
the window to `0`, and the tick's effective telemetry interval is the
configured send interval — no deactivation command involved. -/
theorem c7_live_mode_lazy_decay (s : RunState) (now : ℚ) (sr : Option Reading)
    (h0 : s.liveModeUntil ≠ 0) (h1 : s.liveModeUntil < now) :
    isLiveModeActive s.liveModeUntil now = (false, 0) ∧
    (tick s now sr).interval = s.sendInterval ∧
    (tick s now sr).state.liveModeUntil = 0 := by
  have hA : isLiveModeActive s.liveModeUntil now = (false, 0) := by
    unfold isLiveModeActive
    rw [if_neg h0, if_pos h1]
  refine ⟨hA, ?_, ?_⟩
  · rw [tick_interval_eq, hA]
    simp
  · rw [tick_state_liveModeUntil, hA]

/-- C7 witness: a window that ended at `t = 100` is inactive at `t = 101`
and the interval reverts to the configured 60 s. -/
theorem c7_witness :
    isLiveModeActive 100 101 = (false, 0) ∧
    (tick ⟨true, 60, 100, none, 0, 0, 0, true⟩ 101 none).interval = 60 ∧
    (tick ⟨true, 60, 100, none, 0, 0, 0, true⟩ 101 none).state.liveModeUntil = 0 :=
  c7_live_mode_lazy_decay ⟨true, 60, 100, none, 0, 0, 0, true⟩ 101 none
    (by norm_num) (by norm_num)

/-- C8 (corrected).  The firing window is computed on minutes-of-day
without wrapping past midnight, so a window that would cross midnight is
truncated: for windows lying within one calendar day the claimed
equivalence holds exactly (this theorem); for a window opened within five
minutes of midnight the code does not fire after 00:00 although the
claimed window is still open (counterexample). -/
theorem c8_report_window (scheduled current : TimeOfDay) (today : LocalDate)
    (lastSent : Option LocalStamp)
    (hh : current.hour < 24) (hm : current.minute < 60)
    (hcross : minutesOfDay scheduled + 5 ≤ 1440) :
    shouldSendReport scheduled current today lastSent =
      specShouldSend scheduled current today lastSent := by
  have hcm : minutesOfDay current < 1440 := by
    unfold minutesOfDay
    omega
  by_cases h : minutesOfDay scheduled ≤ minutesOfDay current ∧
      minutesOfDay current < minutesOfDay scheduled + 5
  · have hw : specWindow scheduled current = true := by
      unfold specWindow
      rw [List.any_eq_true]
      refine ⟨minutesOfDay current - minutesOfDay scheduled, ?_, ?_⟩
      · rw [List.mem_range]
        omega
      · rw [beq_iff_eq, Nat.mod_eq_of_lt (by omega)]
        omega
    unfold shouldSendReport specShouldSend
    rw [if_pos h, hw]
    cases lastSent <;> simp
  · have hw : specWindow scheduled current = false := by
      unfold specWindow
      rw [List.any_eq_false]
      intro k hk
      rw [List.mem_range] at hk
      rw [beq_iff_eq, Nat.mod_eq_of_lt (by omega)]
      omega
    unfold shouldSendReport specShouldSend
    rw [if_neg h, hw]
    simp

/-- C8 counterexample: a report scheduled at 23:58, evaluated at 00:02 the
next day with nothing sent yet, is inside the claimed 5-minute window but
the scheduler does not fire. -/
theorem c8_counterexample :
    specShouldSend ⟨23, 58⟩ ⟨0, 2⟩ ⟨2025, 6, 2⟩ none = true ∧
    shouldSendReport ⟨23, 58⟩ ⟨0, 2⟩ ⟨2025, 6, 2⟩ none = false := by
  decide

/-- C8 witness: an 08:00 report at 08:03, last sent the previous local day,
fires on both the code's and the claimed window. -/
theorem c8_witness :
    shouldSendReport ⟨8, 0⟩ ⟨8, 3⟩ ⟨2025, 6, 2⟩ (some ⟨⟨2025, 6, 1⟩, ⟨8, 2⟩⟩) =
      specShouldSend ⟨8, 0⟩ ⟨8, 3⟩ ⟨2025, 6, 2⟩ (some ⟨⟨2025, 6, 1⟩, ⟨8, 2⟩⟩) :=
  c8_report_window ⟨8, 0⟩ ⟨8, 3⟩ ⟨2025, 6, 2⟩ (some ⟨⟨2025, 6, 1⟩, ⟨8, 2⟩⟩)
    (by decide) (by decide) (by decide)

/-- C9 (corrected).  A config push merges only the recognised fields
(`send_interval`, `display_enabled`) when present; any other payload field
is ignored, every other config field is left unchanged, and the config is
rewritten to disk exactly when at least one recognised field was present
in the payload. -/
theorem c9_config_merge (cfg : DeviceCfg) (flag : Bool) (p : ConfigPush) :
    (applyConfig cfg flag p).config.sendInterval = p.sendInterval.getD cfg.sendInterval ∧
    (applyConfig cfg flag p).config.displayEnabled = p.displayEnabled.getD cfg.displayEnabled ∧
    (applyConfig cfg flag p).displayFlag = p.displayEnabled.getD flag ∧
    (applyConfig cfg flag p).config.mqttBroker = cfg.mqttBroker ∧
    (applyConfig cfg flag p).config.mqttPort = cfg.mqttPort ∧
    (applyConfig cfg flag p).config.deviceUid = cfg.deviceUid ∧
    (applyConfig cfg flag p).config.deviceName = cfg.deviceName ∧
    (applyConfig cfg flag p).persistAttempted =
      (p.sendInterval.isSome || p.displayEnabled.isSome) ∧
    (applyConfig cfg flag p).displayCleared = (p.displayEnabled == some false) := by
  obtain ⟨si, de, mb, dn⟩ := p
  cases si <;> cases de <;> simp [applyConfig]

/-- C9 counterexample: a payload carrying only an unrecognised field
(`mqtt_broker`) changes nothing — the pushed value is not merged, and no
persist happens — refuting "every field present in the payload takes the
pushed value". -/
theorem c9_counterexample :
    applyConfig ⟨"31.59.170.64", 10883, 60, "rpi_1", "CO2 Monitor", true⟩ true
        ⟨none, none, some "10.0.0.1", none⟩ =
      ⟨⟨"31.59.170.64", 10883, 60, "rpi_1", "CO2 Monitor", true⟩, true, false, false⟩ ∧
    ("31.59.170.64" : String) ≠ "10.0.0.1" := by
  decide

/-- Helper: an integer lower bound below `y` bounds `roundHalfEven y`. -/
theorem roundHalfEven_ge (n : ℤ) (y : ℚ) (h : (n : ℚ) ≤ y) : n ≤ roundHalfEven y := by
  have hf : n ≤ ⌊y⌋ := Int.le_floor.mpr h
  unfold roundHalfEven
  dsimp only
  split
  · exact hf
  · split
    · omega
    · split <;> omega

/-- Helper: an integer upper bound above `y` bounds `roundHalfEven y`. -/
theorem roundHalfEven_le (n : ℤ) (y : ℚ) (h : y ≤ (n : ℚ)) : roundHalfEven y ≤ n := by
  have hf : ⌊y⌋ ≤ n := by
    have := Int.floor_le_floor h
    simpa using this
  have hfl := Int.floor_le y
  unfold roundHalfEven
  dsimp only
  split
  · exact hf
  · rename_i h1
    push_neg at h1
    have hlt : ⌊y⌋ < n := by
      by_contra hcon
      push_neg at hcon
      have hn : (n : ℚ) ≤ ⌊y⌋ := by exact_mod_cast hcon
      linarith
    split
    · omega
    · split <;> omega

/-- Helper: rounding to one decimal place stays within any integer bounds
of the argument and lands on a multiple of one tenth. -/
theorem round1_bounds (lo hi : ℤ) (x : ℚ) (h1 : (lo : ℚ) ≤ x) (h2 : x ≤ (hi : ℚ)) :
    (lo : ℚ) ≤ round1 x ∧ round1 x ≤ (hi : ℚ) ∧ ∃ k : ℤ, round1 x = (k : ℚ) / 10 := by
  have hg : lo * 10 ≤ roundHalfEven (x * 10) := by
    apply roundHalfEven_ge
    push_cast
    nlinarith
  have hl : roundHalfEven (x * 10) ≤ hi * 10 := by
    apply roundHalfEven_le
    push_cast
    nlinarith
  have hgq : ((lo * 10 : ℤ) : ℚ) ≤ (roundHalfEven (x * 10) : ℚ) := by exact_mod_cast hg
  have hlq : ((roundHalfEven (x * 10) : ℤ) : ℚ) ≤ ((hi * 10 : ℤ) : ℚ) := by exact_mod_cast hl
  push_cast at hgq hlq
  unfold round1
  refine ⟨?_, ?_, ⟨roundHalfEven (x * 10), rfl⟩⟩
  · rw [le_div_iff₀ (by norm_num : (0 : ℚ) < 10)]
    linarith
  · rw [div_le_iff₀ (by norm_num : (0 : ℚ) < 10)]
    linarith

/-- C10 (confirmed).  Every reading `sensorRead` returns satisfies the
physical bounds — `0 ≤ co2 ≤ 40000` (an integer by construction),
`-10 ≤ temperature ≤ 60`, `0 ≤ humidity ≤ 100`, the latter two rounded to
one decimal place — and an out-of-range raw sample yields `none`. -/
theorem c10_read_bounds (s : SensorState) (env : ReadEnv) :
    (∀ r s2, sensorRead s env = (some r, s2) →
      0 ≤ r.co2 ∧ r.co2 ≤ 40000 ∧
      -10 ≤ r.temperature ∧ r.temperature ≤ 60 ∧
      0 ≤ r.humidity ∧ r.humidity ≤ 100 ∧
      (∃ k : ℤ, r.temperature = (k : ℚ) / 10) ∧
      (∃ k : ℤ, r.humidity = (k : ℚ) / 10)) ∧
    (∀ raw, env.sample = some raw →
      ¬ ((0 ≤ raw.co2 ∧ raw.co2 ≤ 40000) ∧
         (-10 ≤ raw.temperature ∧ raw.temperature ≤ 60) ∧
         (0 ≤ raw.humidity ∧ raw.humidity ≤ 100)) →
      (sensorRead s env).1 = none) := by
  constructor
  · intro r s2 hr
    unfold sensorRead at hr
    repeat' split at hr
    all_goals try (simp at hr; done)
    rename_i xo raw hre hskip hco2 htemp hhum
    push_neg at hco2 htemp hhum
    rw [Prod.mk.injEq, Option.some_inj] at hr
    obtain ⟨h1, h2⟩ := hr
    subst h1
    obtain ⟨hco2a, hco2b⟩ := hco2
    obtain ⟨hta, htb⟩ := htemp
    obtain ⟨hha, hhb⟩ := hhum
    have hco : 0 ≤ truncInt raw.co2 ∧ truncInt raw.co2 ≤ 40000 := by
      unfold truncInt
      rw [if_pos hco2a]
      constructor
      · exact Int.le_floor.mpr (by exact_mod_cast hco2a)
      · have : (⌊raw.co2⌋ : ℚ) ≤ 40000 := le_trans (Int.floor_le _) hco2b
        exact_mod_cast this
    have ht := round1_bounds (-10) 60 raw.temperature (by exact_mod_cast hta) (by exact_mod_cast htb)
    have hh := round1_bounds 0 100 raw.humidity (by exact_mod_cast hha) (by exact_mod_cast hhb)
    refine ⟨hco.1, hco.2, ?_, ?_, ?_, ?_, ht.2.2, hh.2.2⟩
    · exact_mod_cast ht.1
    · exact_mod_cast ht.2.1
    · exact_mod_cast hh.1
    · exact_mod_cast hh.2.1
  · intro raw hraw hout
    unfold sensorRead
    repeat' split
    all_goals simp_all

/-- C10 witness: a raw sample of 400 ppm, 20 °C, 50 % yields a reading
within all bounds, on tenths. -/
theorem c10_witness :
    0 ≤ (Reading.mk 400 20 50).co2 ∧ (Reading.mk 400 20 50).co2 ≤ 40000 ∧
    -10 ≤ (Reading.mk 400 20 50).temperature ∧ (Reading.mk 400 20 50).temperature ≤ 60 ∧
    0 ≤ (Reading.mk 400 20 50).humidity ∧ (Reading.mk 400 20 50).humidity ≤ 100 ∧
    (∃ k : ℤ, (Reading.mk 400 20 50).temperature = (k : ℚ) / 10) ∧
    (∃ k : ℤ, (Reading.mk 400 20 50).humidity = (k : ℚ) / 10) :=
  (c10_read_bounds ⟨true, true, 0⟩ ⟨true, true, some ⟨400, 20, 50⟩⟩).1
    ⟨400, 20, 50⟩ ⟨true, true, 0⟩
    (by norm_num [sensorRead, truncInt, round1, roundHalfEven])
